import Mathlib

/-!
# Verification of the interaction-service feedback/curation pipeline

Shallow embedding of the business-logic services of the repository
(`app/services/*.py`) as executable Lean definitions, together with
theorems settling the specification claims about them.

Conventions of the embedding:
* database tables are lists of structures, queried with `List.find?` /
  `List.filter`; SQLAlchemy `query.first()` becomes `List.find?`,
  `db.session.add` becomes list append (insertion order preserved);
* UUID values become `Nat` identifiers, user identifiers stay `String`;
* timestamps become `Nat`;
* fallible service functions return `Except String α` paired with the
  post-state (the error string is the `{"error": ...}` message of the
  source); error paths leave the state unchanged, mirroring rollback;
* Python float arithmetic on small rationals (the CSV average) is
  modelled with `ℚ`, and `f"{x:.2f}"` with decimal rounding half-to-even
  on the exact rational;
* external collaborators (auth service, model service) are passed in as
  function-valued parameters.
-/

namespace InteractionService

/-- Python truthiness of an optional string (`if s:` is false for `None`
and for the empty string). -/
def isTruthy : Option String → Bool
  | none => false
  | some s => !(s == "")

section StableSort

variable {α : Type} (key : α → Nat)

/-- Insert `x` into `l` before the first element whose key is `≤ key x`.
Folding this over a list from the right yields exactly a stable
descending sort, the behaviour of Python's
`sorted(l, key=key, reverse=True)`. -/
def insertDescBy (x : α) : List α → List α
  | [] => [x]
  | y :: ys => if key y ≤ key x then x :: y :: ys else y :: insertDescBy x ys

/-- Stable descending sort by a `Nat` key (Python `sorted(..., reverse=True)`). -/
def sortDescBy (l : List α) : List α := l.foldr (insertDescBy key) []

end StableSort

/-! ## Dataset curation (`app/services/dataset_service.py`) -/

namespace DatasetService

/-- A dimension rating attached to a feedback record, as read by
`create_entry_from_feedback` (`rating.dimension_id`, `rating.dimension.name`,
`rating.score`, `rating.justification`, `rating.correct_response`). -/
structure DimensionRating where
  dimension_id : Nat
  dimension_name : String
  score : Nat
  justification : Option String
  correct_response : Option String
deriving Repr, DecidableEq

/-- The per-rating dictionary stored into the entry metadata
(`dimension_data` in the source); `correct_response` is only set when the
rating carried a truthy correction. -/
structure DimensionRatingData where
  dimension_id : Nat
  dimension_name : String
  score : Nat
  justification : Option String
  correct_response : Option String
deriving Repr, DecidableEq

/-- Row of the `feedback` table as used by the dataset service
(`feedback.status`, `feedback.response_id`, `feedback.dimension_ratings`,
`feedback.overall_comment`, `feedback.user_id`). -/
structure Feedback where
  id : Nat
  user_id : String
  response_id : Nat
  status : String
  overall_comment : Option String
  dimension_ratings : List DimensionRating
deriving Repr, DecidableEq

/-- Row of the `responses` table (`response.prompt_id`, `response.content`). -/
structure Response where
  id : Nat
  prompt_id : Nat
  content : String
deriving Repr, DecidableEq

/-- Row of the `prompts` table (`prompt.interaction_id`, `prompt.content`). -/
structure Prompt where
  id : Nat
  interaction_id : Nat
  content : String
deriving Repr, DecidableEq

/-- Row of the `interactions` table as used by the dataset service. -/
structure Interaction where
  id : Nat
  model_id : String
  model_version : String
  endpoint_name : String
deriving Repr, DecidableEq

/-- The `metadata` JSONB written on a dataset entry. -/
structure EntryMetadata where
  model_version : String
  endpoint_name : String
  dimension_ratings : List DimensionRatingData
  overall_comment : Option String
  feedback_user_id : String
  interaction_id : Nat
deriving Repr, DecidableEq

/-- Row of the `dataset_entries` table (`app/models/dataset.py`). -/
structure DatasetEntry where
  id : Nat
  feedback_id : Nat
  model_id : String
  prompt_text : String
  response_text : String
  correct_response : Option String
  dataset_metadata : EntryMetadata
deriving Repr, DecidableEq

/-- Database state visible to the dataset service.  `next_entry_id` stands
for the UUID generator for new dataset entries. -/
structure Db where
  dataset_entries : List DatasetEntry
  feedbacks : List Feedback
  responses : List Response
  prompts : List Prompt
  interactions : List Interaction
  next_entry_id : Nat
deriving Repr, DecidableEq

/-- The correction-collecting loop of `create_entry_from_feedback`
(lines 53–69): `correct_response` starts as `None` and is overwritten by
each truthy `rating.correct_response` in iteration order, while the
per-rating metadata dictionaries are accumulated in order. -/
def correctionScan (ratings : List DimensionRating) :
    Option String × List DimensionRatingData :=
  ratings.foldl
    (fun acc rating =>
      if isTruthy rating.correct_response then
        (rating.correct_response,
         acc.2 ++ [⟨rating.dimension_id, rating.dimension_name, rating.score,
                    rating.justification, rating.correct_response⟩])
      else
        (acc.1,
         acc.2 ++ [⟨rating.dimension_id, rating.dimension_name, rating.score,
                    rating.justification, none⟩]))
    (none, [])

/-- `DatasetService.create_entry_from_feedback`: return the existing entry
for this feedback id if one exists; otherwise resolve the
feedback → response → prompt → interaction chain, collect the correction
and per-dimension metadata, and append a new entry.  Error paths leave the
database unchanged. -/
def create_entry_from_feedback (db : Db) (feedback_id : Nat) :
    Except String DatasetEntry × Db :=
  match db.dataset_entries.find? (fun e => e.feedback_id == feedback_id) with
  | some existing => (.ok existing, db)
  | none =>
    match db.feedbacks.find? (fun f => f.id == feedback_id) with
    | none => (.error "Feedback not found or not validated", db)
    | some feedback =>
      if feedback.status != "VALIDATED" then
        (.error "Feedback not found or not validated", db)
      else
        match db.responses.find? (fun r => r.id == feedback.response_id) with
        | none => (.error "Associated response not found", db)
        | some response =>
          match db.prompts.find? (fun p => p.id == response.prompt_id) with
          | none => (.error "Associated prompt not found", db)
          | some prompt =>
            match db.interactions.find? (fun i => i.id == prompt.interaction_id) with
            | none => (.error "Associated interaction not found", db)
            | some interaction =>
              let scan := correctionScan feedback.dimension_ratings
              let entry : DatasetEntry :=
                { id := db.next_entry_id
                  feedback_id := feedback_id
                  model_id := interaction.model_id
                  prompt_text := prompt.content
                  response_text := response.content
                  correct_response := scan.1
                  dataset_metadata :=
                    { model_version := interaction.model_version
                      endpoint_name := interaction.endpoint_name
                      dimension_ratings := scan.2
                      overall_comment := feedback.overall_comment
                      feedback_user_id := feedback.user_id
                      interaction_id := interaction.id } }
              (.ok entry,
               { db with
                   dataset_entries := db.dataset_entries ++ [entry]
                   next_entry_id := db.next_entry_id + 1 })

/-- Specification-style description of the correction pick: the last
rating (in insertion order) carrying a truthy correction, i.e. the first
match on the reversed rating list. -/
def lastTruthyCorrection (ratings : List DimensionRating) : Option String :=
  (ratings.reverse.find? (fun r => isTruthy r.correct_response)).bind
    (fun r => r.correct_response)

/-- The correction pick asserted by the specification: the *first*
rating (in insertion order) carrying a truthy correction. -/
def firstTruthyCorrection (ratings : List DimensionRating) : Option String :=
  (ratings.find? (fun r => isTruthy r.correct_response)).bind
    (fun r => r.correct_response)

/-- One object of `DatasetEntry.to_training_format`
(`app/models/dataset.py`): `response` is the correction when present,
else the original response text. -/
structure TrainingFormat where
  prompt : String
  response : String
  original_response : String
  quality_ratings : List (String × Nat)
  source_id : Nat
deriving Repr, DecidableEq

/-- `DatasetEntry.to_training_format`. -/
def to_training_format (entry : DatasetEntry) : TrainingFormat :=
  { prompt := entry.prompt_text
    response := entry.correct_response.getD entry.response_text
    original_response := entry.response_text
    quality_ratings :=
      entry.dataset_metadata.dimension_ratings.map
        (fun r => (r.dimension_name, r.score))
    source_id := entry.id }

/-- Round the fraction `a / b` half-to-even to the nearest natural
number — the rounding Python's `f"{x:.2f}"` applies to the exact value
of a nonnegative quotient. -/
def roundNearestEven (a b : Nat) : Nat :=
  if b = 0 then 0
  else if 2 * (a % b) < b then a / b
  else if b < 2 * (a % b) then a / b + 1
  else if (a / b) % 2 = 0 then a / b else a / b + 1

/-- Rounding half-to-even of a nonnegative rational to the nearest
integer, computed on the reduced numerator/denominator. -/
def roundHalfEven (q : ℚ) : Nat := roundNearestEven q.num.toNat q.den

/-- Render a nonnegative cent count `c` as the decimal string `c/100`
with exactly two digits after the point (the shape produced by
`f"{x:.2f}"` for nonnegative `x`). -/
def formatCents (c : Nat) : String :=
  toString (c / 100) ++ "." ++
    String.mk [Nat.digitChar (c % 100 / 10), Nat.digitChar (c % 10)]

/-- `f"{q:.2f}"` on a nonnegative rational value. -/
def formatQ2 (q : ℚ) : String := formatCents (roundHalfEven (q * 100))

/-- The `average_rating` of the CSV branch of `export_dataset` as the
specification states it: `0` when the entry's metadata holds no
dimension ratings, otherwise the rational mean of the scores. -/
def avgRating (entry : DatasetEntry) : ℚ :=
  let ratings := entry.dataset_metadata.dimension_ratings
  if ratings.isEmpty then 0
  else ((ratings.map (fun r => r.score)).sum : ℚ) / ratings.length

/-- The `average_rating` cell as the source computes it
(`sum(r.get('score', 0) for r in ratings) / len(ratings)` then
`f"{avg_rating:.2f}"`), carried out in exact integer arithmetic on
hundredths. -/
def avgCell (ratings : List DimensionRatingData) : String :=
  if ratings.isEmpty then formatCents 0
  else
    formatCents
      (roundNearestEven (100 * (ratings.map (fun r => r.score)).sum)
        ratings.length)

/-- One data row written by `csv.writer` in `export_dataset`. -/
def csvRow (entry : DatasetEntry) : List String :=
  [entry.prompt_text, entry.response_text,
   entry.correct_response.getD "", avgCell entry.dataset_metadata.dimension_ratings]

/-- Result of `export_dataset`: a JSON array of training-format objects,
CSV rows (header first), or an error dictionary. -/
inductive ExportResult where
  | jsonData : List TrainingFormat → ExportResult
  | csvData : List (List String) → ExportResult
  | exportError : String → ExportResult
deriving Repr, DecidableEq

/-- `DatasetService.export_dataset`: filter the entries of the model,
fail when there are none, otherwise serialise to the requested format.
The CSV header row is written verbatim from the source
(`['prompt', 'response', 'correct_response', 'average_rating']`). -/
def export_dataset (db : Db) (model_id : String) (format : String) :
    ExportResult :=
  let entries := db.dataset_entries.filter (fun e => e.model_id == model_id)
  if entries.isEmpty then
    .exportError ("No dataset entries found for model " ++ model_id)
  else if format == "json" then
    .jsonData (entries.map to_training_format)
  else if format == "csv" then
    .csvData (["prompt", "response", "correct_response", "average_rating"] ::
              entries.map csvRow)
  else
    .exportError "Unsupported format. Use 'json' or 'csv'"

end DatasetService

/-! ## Validation state machine (`app/services/validation_service.py`) -/

namespace ValidationService

/-- External identity collaborator: `has_role(user, role)` and
`has_permission(user, permission)` from the auth/user clients. -/
structure AuthEnv where
  roles : String → String → Bool
  perms : String → String → Bool

/-- Feedback row as read by the validation service: its `status` column
starts at the model default `PENDING` and is the state of the validation
state machine. -/
structure Feedback where
  id : Nat
  user_id : String
  status : String
deriving Repr, DecidableEq

/-- A fresh feedback row carries the column default status `PENDING`. -/
def Feedback.new (id : Nat) (user_id : String) : Feedback :=
  { id := id, user_id := user_id, status := "PENDING" }

/-- Row of the `validation_records` table. -/
structure VRecord where
  feedback_id : Nat
  validator_id : String
  is_valid : Bool
  notes : Option String
deriving Repr, DecidableEq

/-- Database state visible to the validation service. -/
structure VState where
  feedbacks : List Feedback
  validations : List VRecord
deriving Repr, DecidableEq

/-- `ValidationService.validate_feedback`: authorization check, existence
check, terminal-state check, self-validation check, then atomically write
a validation record and move the status to `VALIDATED`/`REJECTED`.
The post-commit best-effort steps (dataset-entry creation, contribution
points) never change the validation outcome or the feedback status and
are modelled by the dataset service separately. -/
def validate_feedback (auth : AuthEnv) (st : VState) (feedback_id : Nat)
    (validator_id : String) (is_valid : Bool) (notes : Option String) :
    Except String VRecord × VState :=
  let has_validator_role := auth.roles validator_id "validator"
  let is_admin_user := auth.perms validator_id "admin"
  if !(has_validator_role || is_admin_user) then
    (.error "Not authorized to validate feedback. Validator expertise required.", st)
  else
    match st.feedbacks.find? (fun f => f.id == feedback_id) with
    | none => (.error "Feedback not found", st)
    | some feedback =>
      if feedback.status != "PENDING" then
        (.error "Feedback has already been validated", st)
      else if feedback.user_id == validator_id && !auth.perms validator_id "admin" then
        (.error "Validators cannot validate their own feedback", st)
      else
        let validation : VRecord :=
          { feedback_id := feedback_id, validator_id := validator_id,
            is_valid := is_valid, notes := notes }
        let newStatus := if is_valid then "VALIDATED" else "REJECTED"
        (.ok validation,
         { feedbacks :=
             st.feedbacks.map (fun f =>
               if f.id == feedback_id then { f with status := newStatus } else f)
           validations := st.validations ++ [validation] })

/-- Validation record row as used by `get_validator_stats`. -/
structure StatsRecord where
  validator_id : String
  is_valid : Bool
  validated_at : Nat
deriving Repr, DecidableEq

/-- Return value of `get_validator_stats`. -/
structure ValidatorStats where
  total_validations : Nat
  approved_validations : Nat
  approval_rate : ℚ
  recent_validations : List StatsRecord
deriving Repr, DecidableEq

/-- `ValidationService.get_validator_stats`: counts of the validator's
records and approvals, the approval rate guarded against division by
zero, and the ten most recent records. -/
def get_validator_stats (records : List StatsRecord) (validator_id : String) :
    ValidatorStats :=
  let total_validations :=
    (records.filter (fun r => r.validator_id == validator_id)).length
  let approved_validations :=
    (records.filter (fun r => r.validator_id == validator_id && r.is_valid)).length
  let recent_validations :=
    (sortDescBy (fun r => r.validated_at)
      (records.filter (fun r => r.validator_id == validator_id))).take 10
  { total_validations := total_validations
    approved_validations := approved_validations
    approval_rate :=
      if total_validations > 0 then
        (approved_validations : ℚ) / total_validations
      else 0
    recent_validations := recent_validations }

end ValidationService

/-! ## Dimension catalog (`app/services/dimension_service.py`) -/

namespace DimensionService

/-- Row of the `evaluation_dimensions` table
(`app/models/dimension.py`, fields used by the dimension service). -/
structure EvaluationDimension where
  id : Nat
  model_id : String
  name : String
  description : String
  created_by : String
  is_active : Bool
deriving Repr, DecidableEq

/-- Database state visible to the dimension service; `next_dimension_id`
stands for the UUID generator. -/
structure Db where
  dimensions : List EvaluationDimension
  next_dimension_id : Nat
deriving Repr, DecidableEq

/-- `DimensionService.create_dimension`: validate the model with the
external model collaborator (skipped for the universal scope `"all"`),
then fail if *any* dimension with the same `(model_id, name)` exists —
the existence query has no `is_active` filter — and otherwise append a
new active dimension. -/
def create_dimension (validate_model : String → Bool) (db : Db)
    (model_id name description created_by : String) :
    Except String EvaluationDimension × Db :=
  if model_id != "all" && !validate_model model_id then
    (.error "Model not found or not deployed", db)
  else
    match db.dimensions.find? (fun d => d.model_id == model_id && d.name == name) with
    | some _ => (.error "Dimension with this name already exists for this model", db)
    | none =>
      let dimension : EvaluationDimension :=
        { id := db.next_dimension_id, model_id := model_id, name := name,
          description := description, created_by := created_by,
          is_active := true }
      (.ok dimension,
       { dimensions := db.dimensions ++ [dimension]
         next_dimension_id := db.next_dimension_id + 1 })

end DimensionService

/-! ## Feedback submission (`app/services/feedback_service.py`) -/

namespace FeedbackService

/-- Row of the `interactions` table as used by `submit_feedback`. -/
structure Interaction where
  id : Nat
  model_id : String
  model_version : String
deriving Repr, DecidableEq

/-- Row of the `prompts` table as used by the feedback service. -/
structure Prompt where
  id : Nat
  interaction_id : Nat
deriving Repr, DecidableEq

/-- Row of the `responses` table as used by `create_feedback`. -/
structure Response where
  id : Nat
  prompt_id : Nat
deriving Repr, DecidableEq

/-- Feedback row created by `submit_feedback` (the scalar/binary/ranking
shape of the record). -/
structure ScalarFeedback where
  id : Nat
  interaction_id : Nat
  prompt_id : Nat
  user_id : String
  model_id : String
  model_version : String
  category : String
  rating : Option Int
  binary_evaluation : Option Bool
  ranking : Option Int
  justification : Option String
deriving Repr, DecidableEq

/-- Feedback row created by `create_feedback` (the dimension-ratings
shape of the record). -/
structure RatedFeedback where
  id : Nat
  response_id : Nat
  user_id : String
  overall_comment : Option String
deriving Repr, DecidableEq

/-- Row of the `dimension_ratings` table written by `create_feedback`. -/
structure DimensionRatingRow where
  feedback_id : Nat
  dimension_id : Nat
  score : Int
  justification : Option String
  correct_response : Option String
deriving Repr, DecidableEq

/-- One element of the `dimension_ratings` request list accepted by
`create_feedback`: the dimension is referenced either by UUID or by
name (the source first attempts a UUID parse, then a case-insensitive
name lookup), and the score may be absent or non-numeric, which the
source rejects when coercing with `int(score)`. -/
structure RatingInput where
  dimension_ref : Sum Nat String
  score : Option Int
  justification : Option String
  correct_response : Option String
deriving Repr, DecidableEq

/-- Database state visible to the feedback service. -/
structure Db where
  interactions : List Interaction
  prompts : List Prompt
  responses : List Response
  scalar_feedbacks : List ScalarFeedback
  rated_feedbacks : List RatedFeedback
  dimension_ratings : List DimensionRatingRow
  dimensions : List DimensionService.EvaluationDimension
  next_feedback_id : Nat
deriving Repr, DecidableEq

/-- `FeedbackService.submit_feedback` (lines 25–106): existence check on
interaction and prompt, the no-signal guard
(`if not any([rating is not None, binary_evaluation is not None,
ranking is not None])`), the rating bound check, then persistence. -/
def submit_feedback (db : Db) (interaction_id prompt_id : Nat)
    (user_id category : String) (rating : Option Int)
    (binary_evaluation : Option Bool) (ranking : Option Int)
    (justification : Option String) :
    Except String ScalarFeedback × Db :=
  match db.interactions.find? (fun i => i.id == interaction_id) with
  | none => (.error "Interaction or prompt not found", db)
  | some interaction =>
    match db.prompts.find? (fun p => p.id == prompt_id) with
    | none => (.error "Interaction or prompt not found", db)
    | some _ =>
      if !(rating.isSome || binary_evaluation.isSome || ranking.isSome) then
        (.error "Must provide at least one type of evaluation", db)
      else if rating.any (fun v => !(1 ≤ v && v ≤ 5)) then
        (.error "Rating must be between 1 and 5", db)
      else
        let feedback : ScalarFeedback :=
          { id := db.next_feedback_id, interaction_id := interaction_id,
            prompt_id := prompt_id, user_id := user_id,
            model_id := interaction.model_id,
            model_version := interaction.model_version,
            category := category, rating := rating,
            binary_evaluation := binary_evaluation, ranking := ranking,
            justification := justification }
        (.ok feedback,
         { db with
             scalar_feedbacks := db.scalar_feedbacks ++ [feedback]
             next_feedback_id := db.next_feedback_id + 1 })

/-- Dimension resolution inside the rating loop of `create_feedback`:
UUID references are looked up by id; name references fall back to a
case-insensitive name match restricted to the interaction's model or the
universal `"all"` scope. -/
def resolveDimension (dims : List DimensionService.EvaluationDimension)
    (model_id : String) (ref : Sum Nat String) :
    Option DimensionService.EvaluationDimension :=
  match ref with
  | .inl did => dims.find? (fun d => d.id == did)
  | .inr s =>
    dims.find? (fun d =>
      (d.model_id == model_id || d.model_id == "all") &&
        d.name.toLower == s.toLower)

/-- The rating loop of `create_feedback`: resolve each dimension, check
applicability and the 1–5 score bound, and accumulate the rows to be
committed; the first failure aborts (the source rolls back the whole
submission). -/
def processRatings (dims : List DimensionService.EvaluationDimension)
    (model_id : String) (feedback_id : Nat) :
    List RatingInput → Except String (List DimensionRatingRow)
  | [] => .ok []
  | input :: rest =>
    match resolveDimension dims model_id input.dimension_ref with
    | none => .error "Dimension not found. Please use a valid dimension ID or name"
    | some dimension =>
      if dimension.model_id != model_id && dimension.model_id != "all" then
        .error ("Dimension " ++ dimension.name ++ " is not applicable to this model")
      else
        match input.score with
        | none => .error "Score must be a number between 1 and 5"
        | some score_int =>
          if !(1 ≤ score_int && score_int ≤ 5) then
            .error "Score must be between 1 and 5"
          else
            match processRatings dims model_id feedback_id rest with
            | .error e => .error e
            | .ok rows =>
              .ok ({ feedback_id := feedback_id,
                     dimension_id := dimension.id,
                     score := score_int,
                     justification := input.justification,
                     correct_response := input.correct_response } :: rows)

/-- `FeedbackService.create_feedback` (lines 264–387): resolve the
response → prompt → interaction chain, reject duplicate
`(response_id, user_id)` submissions, then create the record and its
dimension-rating rows atomically.  There is no minimum-signal check on
this path: an empty `dimension_ratings` list commits a record with no
ratings.  Post-commit best-effort steps (auto-validation for validators,
contribution points) are modelled by the validation service. -/
def create_feedback (db : Db) (response_id : Nat) (user_id : String)
    (dimension_ratings : List RatingInput) (overall_comment : Option String) :
    Except String RatedFeedback × Db :=
  match db.responses.find? (fun r => r.id == response_id) with
  | none => (.error "Response not found", db)
  | some response =>
    match db.prompts.find? (fun p => p.id == response.prompt_id) with
    | none => (.error "Associated prompt not found", db)
    | some prompt =>
      match db.interactions.find? (fun i => i.id == prompt.interaction_id) with
      | none => (.error "Associated interaction not found", db)
      | some interaction =>
        if db.rated_feedbacks.any (fun f =>
            f.response_id == response_id && f.user_id == user_id) then
          (.error "You have already provided feedback for this response", db)
        else
          let feedback : RatedFeedback :=
            { id := db.next_feedback_id, response_id := response_id,
              user_id := user_id, overall_comment := overall_comment }
          match processRatings db.dimensions interaction.model_id feedback.id
              dimension_ratings with
          | .error e => (.error e, db)
          | .ok rows =>
            (.ok feedback,
             { db with
                 rated_feedbacks := db.rated_feedbacks ++ [feedback]
                 dimension_ratings := db.dimension_ratings ++ rows
                 next_feedback_id := db.next_feedback_id + 1 })

end FeedbackService

/-! ## Leaderboard (`app/services/leaderboard_service.py`) -/

namespace LeaderboardService

/-- Feedback row as aggregated by `get_user_rankings`. -/
structure FeedbackRow where
  user_id : Nat
  validation_status : String
  category : String
  created_at : Nat
deriving Repr, DecidableEq

/-- Interaction row as aggregated by `get_user_rankings`. -/
structure InteractionRow where
  user_id : Nat
  status : String
  started_at : Nat
deriving Repr, DecidableEq

/-- The per-user metrics dictionary built by `get_user_rankings`. -/
structure Metrics where
  feedback_count : Nat
  accepted_feedback : Nat
  interaction_count : Nat
  completed_interactions : Nat
  total_points : Nat
deriving Repr, DecidableEq

/-- The all-zero metrics a user starts with on first sight. -/
def Metrics.zero : Metrics := ⟨0, 0, 0, 0, 0⟩

/-- One entry of the insertion-ordered `user_metrics` dictionary. -/
structure UserEntry where
  user_id : Nat
  metrics : Metrics
deriving Repr, DecidableEq

/-- One element of the returned `rankings` list. -/
structure Ranking where
  rank : Nat
  user_id : Nat
  metrics : Metrics
deriving Repr, DecidableEq

/-- `start_date` computed from the requested `time_period` (minutes as
the time unit: `timedelta(days=1)`, `timedelta(weeks=1)`,
`timedelta(days=30)`); anything else means unbounded (`all_time`). -/
def startDateFor (time_period : String) (now : Nat) : Option Nat :=
  if time_period == "daily" then some (now - 1440)
  else if time_period == "weekly" then some (now - 10080)
  else if time_period == "monthly" then some (now - 43200)
  else none

/-- The WHERE clauses of the feedback aggregation query:
`created_at >= start_date` when a window is requested and the optional
category filter. -/
def filterFeedback (rows : List FeedbackRow) (start_date : Option Nat)
    (category : Option String) : List FeedbackRow :=
  let r1 := match start_date with
    | some d => rows.filter (fun r => d ≤ r.created_at)
    | none => rows
  match category with
  | some c => r1.filter (fun r => r.category == c)
  | none => r1

/-- The WHERE clause of the interaction aggregation query (note: the
source applies no category filter to interactions). -/
def filterInteractions (rows : List InteractionRow) (start_date : Option Nat) :
    List InteractionRow :=
  match start_date with
  | some d => rows.filter (fun r => d ≤ r.started_at)
  | none => rows

/-- Distinct values in first-appearance order (the grouping keys of a
GROUP BY over the row list). -/
def distinctUsers (users : List Nat) : List Nat :=
  users.foldl (fun acc u => if acc.contains u then acc else acc ++ [u]) []

/-- The grouped feedback query: per user, the row count and the sum of
`CASE WHEN validation_status = 'ACCEPTED' THEN 1 ELSE 0 END`. -/
def groupFeedback (rows : List FeedbackRow) : List (Nat × Nat × Nat) :=
  (distinctUsers (rows.map (fun r => r.user_id))).map (fun u =>
    (u, (rows.filter (fun r => r.user_id == u)).length,
        (rows.filter (fun r =>
          r.user_id == u && r.validation_status == "ACCEPTED")).length))

/-- The grouped interaction query: per user, the row count and the count
of rows with `status = 'COMPLETED'`. -/
def groupInteractions (rows : List InteractionRow) : List (Nat × Nat × Nat) :=
  (distinctUsers (rows.map (fun r => r.user_id))).map (fun u =>
    (u, (rows.filter (fun r => r.user_id == u)).length,
        (rows.filter (fun r =>
          r.user_id == u && r.status == "COMPLETED")).length))

/-- Body of the first aggregation loop: default the user's metrics to
zero on first sight, assign the feedback counts, and add
`feedback_count * 5 + accepted_feedback * 10` points. -/
def updFeedback (g : Nat × Nat × Nat) (mt : Metrics) : Metrics :=
  { mt with
      feedback_count := g.2.1
      accepted_feedback := g.2.2
      total_points := mt.total_points + (g.2.1 * 5 + g.2.2 * 10) }

def applyFeedbackGroup (m : List UserEntry) (g : Nat × Nat × Nat) :
    List UserEntry :=
  if m.any (fun e => e.user_id == g.1) then
    m.map (fun e =>
      if e.user_id == g.1 then { e with metrics := updFeedback g e.metrics } else e)
  else
    m ++ [⟨g.1, updFeedback g Metrics.zero⟩]

/-- Body of the second aggregation loop: default to zero on first sight,
assign the interaction counts, and add
`interaction_count * 2 + completed_interactions * 5` points. -/
def updInteraction (g : Nat × Nat × Nat) (mt : Metrics) : Metrics :=
  { mt with
      interaction_count := g.2.1
      completed_interactions := g.2.2
      total_points := mt.total_points + (g.2.1 * 2 + g.2.2 * 5) }

def applyInteractionGroup (m : List UserEntry) (g : Nat × Nat × Nat) :
    List UserEntry :=
  if m.any (fun e => e.user_id == g.1) then
    m.map (fun e =>
      if e.user_id == g.1 then { e with metrics := updInteraction g e.metrics } else e)
  else
    m ++ [⟨g.1, updInteraction g Metrics.zero⟩]

/-- The insertion-ordered `user_metrics` dictionary after both
aggregation loops. -/
def userMetricsOf (frows : List FeedbackRow) (irows : List InteractionRow)
    (time_period : String) (now : Nat) (category : Option String) :
    List UserEntry :=
  let start_date := startDateFor time_period now
  let fgroups := groupFeedback (filterFeedback frows start_date category)
  let igroups := groupInteractions (filterInteractions irows start_date)
  (igroups.foldl applyInteractionGroup (fgroups.foldl applyFeedbackGroup []))

/-- `enumerate(sorted_users, 1)`: attach 1-based sequential ranks. -/
def attachRanks : Nat → List UserEntry → List Ranking
  | _, [] => []
  | n, e :: es => ⟨n, e.user_id, e.metrics⟩ :: attachRanks (n + 1) es

/-- `LeaderboardService.get_user_rankings`: aggregate per-user metrics,
sort by total points descending (Python's `sorted` — a *stable* sort
with no further tie-break key), truncate to `limit`, and attach 1-based
sequential ranks.  The profile enrichment from the external profile
collaborator adds display fields only and is not modelled. -/
def get_user_rankings (frows : List FeedbackRow) (irows : List InteractionRow)
    (time_period : String) (now : Nat) (category : Option String)
    (limit : Nat) : List Ranking :=
  let sorted_users :=
    (sortDescBy (fun e => e.metrics.total_points)
      (userMetricsOf frows irows time_period now category)).take limit
  attachRanks 1 sorted_users

/-- The ordering the specification claims for the rankings list:
strictly descending points, with ties broken by ascending user
identifier. -/
def pointsThenIdOrder : List Ranking → Bool
  | [] => true
  | [_] => true
  | a :: b :: rest =>
    (b.metrics.total_points < a.metrics.total_points ||
      (a.metrics.total_points == b.metrics.total_points &&
        a.user_id < b.user_id)) &&
    pointsThenIdOrder (b :: rest)

/-- The fixed additive scoring formula of the specification. -/
def pointsFormula (mt : Metrics) : Prop :=
  mt.total_points =
    5 * mt.feedback_count + 10 * mt.accepted_feedback +
      2 * mt.interaction_count + 5 * mt.completed_interactions

/-- Shape of a metrics entry after the feedback loop and before the
interaction loop. -/
def pPhase1 (mt : Metrics) : Prop :=
  mt.total_points = 5 * mt.feedback_count + 10 * mt.accepted_feedback ∧
    mt.interaction_count = 0 ∧ mt.completed_interactions = 0

end LeaderboardService

/-! ## Concrete instances used by witnesses and counterexamples -/

namespace Examples

/-- Two ratings whose corrections differ: the first carries `fix A`,
the second `fix B`. -/
def c1_ratings : List DatasetService.DimensionRating :=
  [⟨10, "accuracy", 2, none, some "fix A"⟩,
   ⟨11, "relevance", 3, none, some "fix B"⟩]

/-- A database holding one validated feedback with the two corrections
of `c1_ratings` and an intact response → prompt → interaction chain. -/
def c1_db : DatasetService.Db :=
  { dataset_entries := []
    feedbacks := [⟨1, "u1", 1, "VALIDATED", none, c1_ratings⟩]
    responses := [⟨1, 1, "the response"⟩]
    prompts := [⟨1, 1, "the prompt"⟩]
    interactions := [⟨1, "model-1", "v1", "ep"⟩]
    next_entry_id := 100 }

/-- A dataset entry already referencing feedback 7. -/
def c3_entry : DatasetService.DatasetEntry :=
  ⟨50, 7, "model-1", "p", "r", none, ⟨"v1", "ep", [], none, "u1", 1⟩⟩

/-- A database in which feedback 7 already has a dataset entry. -/
def c3_db : DatasetService.Db :=
  { dataset_entries := [c3_entry]
    feedbacks := []
    responses := []
    prompts := []
    interactions := []
    next_entry_id := 51 }

/-- Three dataset entries for `model-1` whose dimension scores average
4.0, 3.5 and 5.0. -/
def c7_db : DatasetService.Db :=
  { dataset_entries :=
      [⟨60, 1, "model-1", "p1", "r1", none,
        ⟨"v1", "ep", [⟨10, "accuracy", 4, none, none⟩], none, "u1", 1⟩⟩,
       ⟨61, 2, "model-1", "p2", "r2", some "better",
        ⟨"v1", "ep", [⟨10, "accuracy", 3, none, none⟩,
                      ⟨11, "relevance", 4, none, none⟩], none, "u1", 1⟩⟩,
       ⟨62, 3, "model-1", "p3", "r3", none,
        ⟨"v1", "ep", [⟨10, "accuracy", 5, none, none⟩], none, "u1", 1⟩⟩]
    feedbacks := []
    responses := []
    prompts := []
    interactions := []
    next_entry_id := 63 }

/-- A database with no dataset entries at all. -/
def c9_db : DatasetService.Db :=
  { dataset_entries := [], feedbacks := [], responses := [], prompts := [],
    interactions := [], next_entry_id := 1 }

/-- An identity environment in which exactly the user `val` holds the
validator role and nobody is admin. -/
def c2_auth : ValidationService.AuthEnv :=
  { roles := fun u r => u == "val" && r == "validator"
    perms := fun _ _ => false }

/-- One pending feedback submitted by `bob`. -/
def c2_state : ValidationService.VState :=
  { feedbacks := [⟨1, "bob", "PENDING"⟩], validations := [] }

/-- Two feedback rows with equal points whose users appear in the order
2, 1. -/
def c5_frows : List LeaderboardService.FeedbackRow :=
  [⟨2, "PENDING", "x", 0⟩, ⟨1, "PENDING", "x", 0⟩]

/-- Feedback rows for one user: two submissions, one accepted. -/
def c4_frows : List LeaderboardService.FeedbackRow :=
  [⟨1, "ACCEPTED", "a", 0⟩, ⟨1, "PENDING", "a", 0⟩]

/-- Interaction rows for the same user: one completed interaction. -/
def c4_irows : List LeaderboardService.InteractionRow :=
  [⟨1, "COMPLETED", 0⟩]

/-- A database with an intact response → prompt → interaction chain and
no feedback yet. -/
def c6_db : FeedbackService.Db :=
  { interactions := [⟨1, "model-1", "v1"⟩]
    prompts := [⟨1, 1⟩]
    responses := [⟨1, 1⟩]
    scalar_feedbacks := []
    rated_feedbacks := []
    dimension_ratings := []
    dimensions := []
    next_feedback_id := 1 }

/-- A catalog holding one *soft-deactivated* dimension `(model-1, quality)`. -/
def c8_db : DimensionService.Db :=
  { dimensions := [⟨1, "model-1", "quality", "d", "admin", false⟩]
    next_dimension_id := 2 }

/-- A catalog holding one *active* dimension `(model-1, quality)`. -/
def c8_active_db : DimensionService.Db :=
  { dimensions := [⟨1, "model-1", "quality", "d", "admin", true⟩]
    next_dimension_id := 2 }

/-- Validation records of validator `val`: one approval, one rejection. -/
def c10_records : List ValidationService.StatsRecord :=
  [⟨"val", true, 5⟩, ⟨"val", false, 3⟩, ⟨"other", true, 4⟩]

end Examples

/-! ## Helper lemmas -/

theorem mem_insertDescBy {α : Type} (key : α → Nat) {x a : α} {l : List α} :
    a ∈ insertDescBy key x l ↔ a = x ∨ a ∈ l := by
  induction l with
  | nil => simp [insertDescBy]
  | cons y ys ih =>
    by_cases h : key y ≤ key x
    · simp [insertDescBy, h]
    · simp only [insertDescBy, if_neg h, List.mem_cons, ih]
      tauto

theorem mem_sortDescBy {α : Type} (key : α → Nat) {a : α} {l : List α} :
    a ∈ sortDescBy key l ↔ a ∈ l := by
  induction l with
  | nil => simp [sortDescBy]
  | cons y ys ih =>
    simp only [sortDescBy, List.foldr_cons] at *
    rw [mem_insertDescBy, ih, List.mem_cons]

theorem pairwise_insertDescBy {α : Type} (key : α → Nat) {x : α} {l : List α}
    (hl : l.Pairwise (fun a b => key b ≤ key a)) :
    (insertDescBy key x l).Pairwise (fun a b => key b ≤ key a) := by
  induction l with
  | nil => simp [insertDescBy]
  | cons y ys ih =>
    rcases List.pairwise_cons.mp hl with ⟨hy, hys⟩
    by_cases h : key y ≤ key x
    · rw [insertDescBy, if_pos h]
      refine List.pairwise_cons.mpr ⟨?_, hl⟩
      intro a ha
      rcases List.mem_cons.mp ha with rfl | ha
      · exact h
      · exact le_trans (hy a ha) h
    · rw [insertDescBy, if_neg h]
      push_neg at h
      refine List.pairwise_cons.mpr ⟨?_, ih hys⟩
      intro a ha
      rcases (mem_insertDescBy key).mp ha with rfl | ha
      · exact le_of_lt h
      · exact hy a ha

theorem pairwise_sortDescBy {α : Type} (key : α → Nat) (l : List α) :
    (sortDescBy key l).Pairwise (fun a b => key b ≤ key a) := by
  induction l with
  | nil => simp [sortDescBy]
  | cons y ys ih =>
    simp only [sortDescBy, List.foldr_cons] at *
    exact pairwise_insertDescBy key ih

theorem filter_insertDescBy_self {α : Type} (key : α → Nat) {x : α} {l : List α} :
    (insertDescBy key x l).filter (fun a => key a == key x) =
      x :: l.filter (fun a => key a == key x) := by
  induction l with
  | nil => simp [insertDescBy]
  | cons y ys ih =>
    by_cases h : key y ≤ key x
    · simp [insertDescBy, h, List.filter_cons]
    · push_neg at h
      have hne : (key y == key x) = false := by
        simp only [beq_eq_false_iff_ne, ne_eq]
        omega
      simp [insertDescBy, not_le.mpr h, List.filter_cons, hne, ih]

theorem filter_insertDescBy_other {α : Type} (key : α → Nat) {x : α}
    {l : List α} {p : Nat} (hp : key x ≠ p) :
    (insertDescBy key x l).filter (fun a => key a == p) =
      l.filter (fun a => key a == p) := by
  induction l with
  | nil => simp [insertDescBy, hp]
  | cons y ys ih =>
    by_cases h : key y ≤ key x
    · simp [insertDescBy, h, List.filter_cons, hp]
    · simp [insertDescBy, h, List.filter_cons, ih]

/-- Stability of the stable descending sort: for every key value, the
elements carrying that key appear in the sorted list exactly in their
original relative order. -/
theorem filter_sortDescBy {α : Type} (key : α → Nat) (l : List α) (p : Nat) :
    (sortDescBy key l).filter (fun a => key a == p) =
      l.filter (fun a => key a == p) := by
  induction l with
  | nil => simp [sortDescBy]
  | cons y ys ih =>
    simp only [sortDescBy, List.foldr_cons] at *
    by_cases h : key y = p
    · subst h
      rw [filter_insertDescBy_self, ih, List.filter_cons]
      simp
    · rw [filter_insertDescBy_other key h, ih, List.filter_cons]
      simp [h]

namespace DatasetService

theorem correctionScan_fst_aux (ratings : List DimensionRating)
    (acc : Option String) (ds : List DimensionRatingData) :
    (ratings.foldl
      (fun acc rating =>
        if isTruthy rating.correct_response then
          (rating.correct_response,
           acc.2 ++ [⟨rating.dimension_id, rating.dimension_name, rating.score,
                      rating.justification, rating.correct_response⟩])
        else
          (acc.1,
           acc.2 ++ [⟨rating.dimension_id, rating.dimension_name, rating.score,
                      rating.justification, none⟩]))
      (acc, ds)).1 =
      match ratings.reverse.find? (fun r => isTruthy r.correct_response) with
      | some r => r.correct_response
      | none => acc := by
  induction ratings generalizing acc ds with
  | nil => simp
  | cons x xs ih =>
    simp only [List.foldl_cons, List.reverse_cons, List.find?_append]
    by_cases hx : isTruthy x.correct_response
    · rw [if_pos hx, ih]
      cases hfind : xs.reverse.find? (fun r => isTruthy r.correct_response) with
      | some r => simp [Option.orElse]
      | none => simp [Option.orElse, List.find?, hx]
    · rw [if_neg hx, ih]
      cases hfind : xs.reverse.find? (fun r => isTruthy r.correct_response) with
      | some r => simp [Option.orElse]
      | none =>
        simp only [Option.orElse, List.find?]
        rw [Bool.of_not_eq_true hx]
        simp

/-- The correction loop keeps the *last* truthy correction. -/
theorem correctionScan_fst (ratings : List DimensionRating) :
    (correctionScan ratings).1 = lastTruthyCorrection ratings := by
  rw [correctionScan, lastTruthyCorrection, correctionScan_fst_aux]
  cases hfind : ratings.reverse.find? (fun r => isTruthy r.correct_response) with
  | some r => simp
  | none => simp

/-- Characterisation of a successful curation: the returned entry
references the requested feedback id and is found by the
`feedback_id` lookup in the post-state. -/
theorem create_entry_ok {db : Db} {fid : Nat} {e : DatasetEntry} {db' : Db}
    (h : create_entry_from_feedback db fid = (.ok e, db')) :
    e.feedback_id = fid ∧
      db'.dataset_entries.find? (fun x => x.feedback_id == fid) = some e := by
  unfold create_entry_from_feedback at h
  split at h
  next existing hfind =>
    obtain ⟨rfl, rfl⟩ : existing = e ∧ db = db' := by
      simpa [Prod.ext_iff] using h
    have := List.find?_some hfind
    exact ⟨by simpa using this, hfind⟩
  next hfind =>
    split at h
    next => simp at h
    next feedback hfb =>
      split at h
      next => simp at h
      next hst =>
        split at h
        next => simp at h
        next response hr =>
          split at h
          next => simp at h
          next prompt hp =>
            split at h
            next => simp at h
            next interaction hi =>
              obtain ⟨he, hdb⟩ :
                  _ = e ∧
                    ({ db with
                        dataset_entries := db.dataset_entries ++ [_]
                        next_entry_id := db.next_entry_id + 1 } : Db) = db' := by
                simpa [Prod.ext_iff] using h
              subst hdb
              subst he
              refine ⟨rfl, ?_⟩
              simp [List.find?_append, hfind, List.find?]

end DatasetService

/-! ## Claims -/

/-- C1: the specification asserts the curated `correctedResponse` is the
*first* non-null correction in rating insertion order.  On a feedback
whose two ratings carry corrections `fix A` then `fix B`, the code
produces `fix B` — the last one — while the first non-null correction is
`fix A`. -/
theorem c1_counterexample :
    ((DatasetService.create_entry_from_feedback Examples.c1_db 1).1.toOption.map
        (fun e => e.correct_response)) = some (some "fix B") ∧
      DatasetService.firstTruthyCorrection Examples.c1_ratings = some "fix A" ∧
      (some "fix B" : Option String) ≠ some "fix A" := by
  decide

/-- C1 (amended): when curation succeeds on a not-yet-curated validated
feedback with an intact response → prompt → interaction chain, the
entry's corrected response is the *last* truthy correction in rating
insertion order (each non-null correction overwrites the previous one in
the scan). -/
theorem c1_last_correction_wins (db : DatasetService.Db) (fid : Nat)
    (feedback : DatasetService.Feedback) (response : DatasetService.Response)
    (prompt : DatasetService.Prompt) (interaction : DatasetService.Interaction)
    (h0 : db.dataset_entries.find? (fun x => x.feedback_id == fid) = none)
    (hfb : db.feedbacks.find? (fun f => f.id == fid) = some feedback)
    (hst : feedback.status = "VALIDATED")
    (hr : db.responses.find? (fun r => r.id == feedback.response_id) = some response)
    (hp : db.prompts.find? (fun p => p.id == response.prompt_id) = some prompt)
    (hi : db.interactions.find? (fun i => i.id == prompt.interaction_id) =
      some interaction) :
    ∃ e db', DatasetService.create_entry_from_feedback db fid = (.ok e, db') ∧
      e.correct_response =
        DatasetService.lastTruthyCorrection feedback.dimension_ratings := by
  simp only [DatasetService.create_entry_from_feedback, h0, hfb, hr, hp, hi, hst,
    bne_self_eq_false, Bool.false_eq_true, if_false]
  exact ⟨_, _, rfl, DatasetService.correctionScan_fst feedback.dimension_ratings⟩

/-- C1 (amended) at a concrete input: curating feedback 1 of the example
database succeeds and picks the last correction. -/
theorem c1_last_correction_wins_witness :
    ∃ e db',
      DatasetService.create_entry_from_feedback Examples.c1_db 1 = (.ok e, db') ∧
        e.correct_response =
          DatasetService.lastTruthyCorrection
            (⟨1, "u1", 1, "VALIDATED", none, Examples.c1_ratings⟩ :
              DatasetService.Feedback).dimension_ratings :=
  c1_last_correction_wins Examples.c1_db 1
    ⟨1, "u1", 1, "VALIDATED", none, Examples.c1_ratings⟩
    ⟨1, 1, "the response"⟩ ⟨1, 1, "the prompt"⟩ ⟨1, "model-1", "v1", "ep"⟩
    (by decide) (by decide) (by decide) (by decide) (by decide) (by decide)

/-- C3: curation is idempotent — if a dataset entry already references
the feedback id, `create_entry_from_feedback` returns it and changes
nothing; and after any successful curation, running it again on the
returned entry's feedback id returns the same entry and the same
database. -/
theorem c3_curate_idempotent (db : DatasetService.Db) (fid : Nat) :
    (∀ e, db.dataset_entries.find? (fun x => x.feedback_id == fid) = some e →
      DatasetService.create_entry_from_feedback db fid = (.ok e, db)) ∧
    (∀ e db', DatasetService.create_entry_from_feedback db fid = (.ok e, db') →
      DatasetService.create_entry_from_feedback db' e.feedback_id =
        (.ok e, db')) := by
  constructor
  · intro e h
    unfold DatasetService.create_entry_from_feedback
    rw [h]
  · intro e db' h
    obtain ⟨hfid, hfind⟩ := DatasetService.create_entry_ok h
    rw [hfid]
    unfold DatasetService.create_entry_from_feedback
    rw [hfind]

/-- C3 at a concrete input: feedback 7 already has entry 50; curation
returns it unchanged. -/
theorem c3_curate_idempotent_witness :
    DatasetService.create_entry_from_feedback Examples.c3_db 7 =
      (.ok Examples.c3_entry, Examples.c3_db) :=
  (c3_curate_idempotent Examples.c3_db 7).1 Examples.c3_entry (by decide)

namespace DatasetService

theorem roundNearestEven_mul_left (g a b : Nat) (hg : g ≠ 0) (hb : b ≠ 0) :
    roundNearestEven (g * a) (g * b) = roundNearestEven a b := by
  have hg' : 0 < g := Nat.pos_of_ne_zero hg
  unfold roundNearestEven
  rw [if_neg (Nat.mul_ne_zero hg hb), if_neg hb]
  simp only [Nat.mul_div_mul_left _ _ hg', Nat.mul_mod_mul_left]
  have h1 : (2 * (g * (a % b)) < g * b) = (2 * (a % b) < b) := by
    rw [show 2 * (g * (a % b)) = g * (2 * (a % b)) by ring]
    exact propext (Nat.mul_lt_mul_left hg')
  have h2 : (g * b < 2 * (g * (a % b))) = (b < 2 * (a % b)) := by
    rw [show 2 * (g * (a % b)) = g * (2 * (a % b)) by ring]
    exact propext (Nat.mul_lt_mul_left hg')
  simp only [h1, h2]

theorem roundNearestEven_div_gcd (a b : Nat) (hb : b ≠ 0) :
    roundNearestEven (a / Nat.gcd a b) (b / Nat.gcd a b) = roundNearestEven a b := by
  have hg : Nat.gcd a b ≠ 0 := fun h => hb (Nat.eq_zero_of_gcd_eq_zero_right h)
  obtain ⟨a₁, ha⟩ := Nat.gcd_dvd_left a b
  obtain ⟨b₁, hb₁⟩ := Nat.gcd_dvd_right a b
  set g := Nat.gcd a b with hgdef
  have hb₁0 : b₁ ≠ 0 := by
    rintro rfl
    rw [Nat.mul_zero] at hb₁
    exact hb hb₁
  conv_lhs => rw [ha, hb₁]
  conv_rhs => rw [ha, hb₁]
  rw [Nat.mul_div_cancel_left _ (Nat.pos_of_ne_zero hg),
      Nat.mul_div_cancel_left _ (Nat.pos_of_ne_zero hg)]
  exact (roundNearestEven_mul_left g a₁ b₁ hg hb₁0).symm

/-- Rounding the rational `a / b` half-to-even agrees with the integer
computation on `a` and `b` directly: passing to the reduced fraction
changes nothing. -/
theorem roundHalfEven_natCast_div (a b : Nat) (hb : b ≠ 0) :
    roundHalfEven ((a : ℚ) / (b : ℚ)) = roundNearestEven a b := by
  have hcast : ((a : ℚ) / (b : ℚ)) = Rat.normalize (a : ℤ) b hb := by
    rw [show ((a : ℕ) : ℚ) = (((a : ℕ) : ℤ) : ℚ) by push_cast; ring,
        show ((b : ℕ) : ℚ) = (((b : ℕ) : ℤ) : ℚ) by push_cast; ring,
        Rat.intCast_div_eq_divInt, ← Rat.mkRat_eq_divInt, ← Rat.normalize_eq_mkRat hb]
  simp only [roundHalfEven, hcast, Rat.normalize_eq, Int.natAbs_ofNat]
  rw [← Int.natCast_div, Int.toNat_ofNat]
  exact roundNearestEven_div_gcd a b hb

/-- The `average_rating` cell is exactly the 2-decimal rendering of the
rational mean of the entry's scores (and of `0` when there are none). -/
theorem avgCell_eq_formatQ2 (entry : DatasetEntry) :
    avgCell entry.dataset_metadata.dimension_ratings = formatQ2 (avgRating entry) := by
  unfold avgCell avgRating formatQ2
  by_cases h : entry.dataset_metadata.dimension_ratings.isEmpty
  · rw [if_pos h, if_pos h]
    norm_num [roundHalfEven]
    decide
  · rw [if_neg h, if_neg h]
    have hlen : entry.dataset_metadata.dimension_ratings.length ≠ 0 := by
      simpa [List.isEmpty_iff_length_eq_zero] using h
    congr 1
    have hq :
        (((entry.dataset_metadata.dimension_ratings.map (fun r => r.score)).sum : ℚ) /
            (entry.dataset_metadata.dimension_ratings.length : ℚ)) * 100 =
          ((100 * (entry.dataset_metadata.dimension_ratings.map (fun r => r.score)).sum : ℕ) : ℚ) /
            (entry.dataset_metadata.dimension_ratings.length : ℚ) := by
      push_cast [List.map_map]
      rw [show (Nat.cast ∘ fun (r : DimensionRatingData) => r.score :
            DimensionRatingData → ℚ) = fun r => (r.score : ℚ) from rfl]
      ring
    rw [hq, roundHalfEven_natCast_div _ _ hlen]

end DatasetService

/-- C7: the specification asserts the CSV header columns are
`prompt, response, correction, average_rating`; the code writes the
third column as `correct_response`, not `correction`. -/
theorem c7_counterexample :
    (∃ rows,
      DatasetService.export_dataset Examples.c7_db "model-1" "csv" =
        .csvData (["prompt", "response", "correct_response", "average_rating"] :: rows)) ∧
    (["prompt", "response", "correct_response", "average_rating"] : List String) ≠
      ["prompt", "response", "correction", "average_rating"] := by
  refine ⟨⟨[["p1", "r1", "", "4.00"], ["p2", "r2", "better", "3.50"],
            ["p3", "r3", "", "5.00"]], by decide⟩, by decide⟩

/-- C7 (amended): for a model with at least one dataset entry the CSV
export has header `prompt, response, correct_response, average_rating`,
one row per entry, and each row's last cell is the rational mean of the
entry's dimension scores rendered with exactly two digits after the
decimal point (`0.00` when the entry has no ratings). -/
theorem c7_csv_export (db : DatasetService.Db) (m : String)
    (h : db.dataset_entries.filter (fun e => e.model_id == m) ≠ []) :
    DatasetService.export_dataset db m "csv" =
      .csvData (["prompt", "response", "correct_response", "average_rating"] ::
        (db.dataset_entries.filter (fun e => e.model_id == m)).map
          DatasetService.csvRow) ∧
    ∀ e ∈ db.dataset_entries.filter (fun e => e.model_id == m),
      (DatasetService.csvRow e).length = 4 ∧
      (DatasetService.csvRow e).getLast? =
        some (DatasetService.formatQ2 (DatasetService.avgRating e)) ∧
      (e.dataset_metadata.dimension_ratings = [] →
        (DatasetService.csvRow e).getLast? = some "0.00") := by
  constructor
  · unfold DatasetService.export_dataset
    rw [if_neg (by simpa [List.isEmpty_iff] using h)]
    simp
  · intro e _
    refine ⟨rfl, ?_, ?_⟩
    · simp [DatasetService.csvRow, DatasetService.avgCell_eq_formatQ2]
    · intro hempty
      simp [DatasetService.csvRow, DatasetService.avgCell, hempty]
      decide

/-- C7 (amended) at the concrete example: three entries with score means
4.0, 3.5 and 5.0 export with the `correct_response` header and cells
`4.00`, `3.50`, `5.00`. -/
theorem c7_csv_export_witness :
    (DatasetService.export_dataset Examples.c7_db "model-1" "csv" =
      .csvData (["prompt", "response", "correct_response", "average_rating"] ::
        (Examples.c7_db.dataset_entries.filter (fun e => e.model_id == "model-1")).map
          DatasetService.csvRow) ∧
      ∀ e ∈ Examples.c7_db.dataset_entries.filter (fun e => e.model_id == "model-1"),
        (DatasetService.csvRow e).length = 4 ∧
        (DatasetService.csvRow e).getLast? =
          some (DatasetService.formatQ2 (DatasetService.avgRating e)) ∧
        (e.dataset_metadata.dimension_ratings = [] →
          (DatasetService.csvRow e).getLast? = some "0.00")) ∧
    DatasetService.export_dataset Examples.c7_db "model-1" "csv" =
      .csvData [["prompt", "response", "correct_response", "average_rating"],
                ["p1", "r1", "", "4.00"],
                ["p2", "r2", "better", "3.50"],
                ["p3", "r3", "", "5.00"]] :=
  ⟨c7_csv_export Examples.c7_db "model-1" (by decide), by decide⟩

/-- C9: exporting a model with zero dataset entries yields the error
result for every requested format (json, csv or anything else); it never
returns an empty dataset. -/
theorem c9_empty_export_fails (db : DatasetService.Db) (m format : String)
    (h : db.dataset_entries.filter (fun e => e.model_id == m) = []) :
    DatasetService.export_dataset db m format =
      .exportError ("No dataset entries found for model " ++ m) := by
  unfold DatasetService.export_dataset
  rw [if_pos (by simp [h])]

/-- C9 at a concrete input: the empty database errors for both `json`
and `csv`. -/
theorem c9_empty_export_fails_witness :
    DatasetService.export_dataset Examples.c9_db "model-1" "json" =
      .exportError ("No dataset entries found for model " ++ "model-1") ∧
    DatasetService.export_dataset Examples.c9_db "model-1" "csv" =
      .exportError ("No dataset entries found for model " ++ "model-1") :=
  ⟨c9_empty_export_fails Examples.c9_db "model-1" "json" (by decide),
   c9_empty_export_fails Examples.c9_db "model-1" "csv" (by decide)⟩

namespace ValidationService

/-- The status update of a successful validation commutes with the
`id` lookup. -/
theorem find?_status_update (l : List Feedback) (fid : Nat) (s : String) :
    ((l.map (fun f => if f.id = fid then { f with status := s } else f)).find?
        (fun f => f.id == fid)) =
      (l.find? (fun f => f.id == fid)).map (fun f => { f with status := s }) := by
  induction l with
  | nil => rfl
  | cons x xs ih =>
    by_cases hx : x.id = fid
    · have e1 : List.find? (fun f => f.id == fid)
          ({ x with status := s } ::
            xs.map (fun f => if f.id = fid then { f with status := s } else f)) =
          some { x with status := s } :=
        List.find?_cons_of_pos _ (by simp [hx])
      have e2 : List.find? (fun f => f.id == fid) (x :: xs) = some x :=
        List.find?_cons_of_pos _ (by simp [hx])
      rw [List.map_cons, if_pos hx, e1, e2]
      rfl
    · have e1 : List.find? (fun f => f.id == fid)
          (x :: xs.map (fun f => if f.id = fid then { f with status := s } else f)) =
          List.find? (fun f => f.id == fid)
            (xs.map (fun f => if f.id = fid then { f with status := s } else f)) :=
        List.find?_cons_of_neg _ (by simp [hx])
      have e2 : List.find? (fun f => f.id == fid) (x :: xs) =
          List.find? (fun f => f.id == fid) xs :=
        List.find?_cons_of_neg _ (by simp [hx])
      rw [List.map_cons, if_neg hx, e1, e2, ih]

/-- On a feedback whose status is already terminal, `validate_feedback`
changes nothing, and an authorized caller receives the
already-validated error. -/
theorem validate_feedback_terminal {st : VState} {fid : Nat} {f : Feedback}
    (hf : st.feedbacks.find? (fun x => x.id == fid) = some f)
    (hs : f.status ≠ "PENDING") (auth : AuthEnv) (vid : String) (b : Bool)
    (notes : Option String) :
    ((validate_feedback auth st fid vid b notes).2 = st) ∧
      ((auth.roles vid "validator" || auth.perms vid "admin") = true →
        validate_feedback auth st fid vid b notes =
          (.error "Feedback has already been validated", st)) := by
  have hbne : (f.status != "PENDING") = true := by simpa [bne_iff_ne] using hs
  unfold validate_feedback
  cases hauth : (auth.roles vid "validator" || auth.perms vid "admin") with
  | false => simp [hauth]
  | true => simp [hauth, hf, hbne]

/-- A successful validation leaves the feedback in a terminal status. -/
theorem validate_feedback_ok {auth : AuthEnv} {st : VState} {fid : Nat}
    {vid : String} {b : Bool} {notes : Option String} {r : VRecord} {st' : VState}
    (h : validate_feedback auth st fid vid b notes = (.ok r, st')) :
    ∃ f', st'.feedbacks.find? (fun x => x.id == fid) = some f' ∧
      f'.status ≠ "PENDING" := by
  unfold validate_feedback at h
  by_cases hauth : (!(auth.roles vid "validator" || auth.perms vid "admin")) = true
  · rw [if_pos hauth] at h
    simp at h
  · rw [if_neg hauth] at h
    split at h
    next => simp at h
    next f hf =>
      split at h
      next => simp at h
      next hst =>
        split at h
        next => simp at h
        next hself =>
          obtain ⟨-, hst'⟩ : _ = r ∧ _ = st' := by
            simpa [Prod.ext_iff] using h
          refine ⟨{ f with status := if b then "VALIDATED" else "REJECTED" }, ?_, ?_⟩
          · rw [← hst']
            dsimp only
            rw [find?_status_update, hf]
            rfl
          · cases b <;> simp

end ValidationService

/-- C2: the validation status starts `PENDING` and is monotonic under
`validate_feedback`: a record whose status is terminal is never changed
by any call (any caller, any arguments), an authorized caller validating
a terminal record gets the already-validated error, and after any
successful validation a second call on the same feedback id leaves the
state unchanged and (for an authorized caller) returns the
already-validated error. -/
theorem c2_validation_status_monotonic (auth : ValidationService.AuthEnv)
    (st : ValidationService.VState) (fid i : Nat) (u : String) :
    ((ValidationService.Feedback.new i u).status = "PENDING") ∧
    (∀ f, st.feedbacks.find? (fun x => x.id == fid) = some f →
      f.status ≠ "PENDING" →
      ∀ auth2 vid b notes,
        ((ValidationService.validate_feedback auth2 st fid vid b notes).2 = st) ∧
        ((auth2.roles vid "validator" || auth2.perms vid "admin") = true →
          ValidationService.validate_feedback auth2 st fid vid b notes =
            (.error "Feedback has already been validated", st))) ∧
    (∀ vid b notes r st',
      ValidationService.validate_feedback auth st fid vid b notes = (.ok r, st') →
      ∀ auth2 vid2 b2 n2,
        ((ValidationService.validate_feedback auth2 st' fid vid2 b2 n2).2 = st') ∧
        ((auth2.roles vid2 "validator" || auth2.perms vid2 "admin") = true →
          ValidationService.validate_feedback auth2 st' fid vid2 b2 n2 =
            (.error "Feedback has already been validated", st'))) := by
  refine ⟨rfl, ?_, ?_⟩
  · intro f hf hs auth2 vid b notes
    exact ValidationService.validate_feedback_terminal hf hs auth2 vid b notes
  · intro vid b notes r st' h auth2 vid2 b2 n2
    obtain ⟨f', hf', hs'⟩ := ValidationService.validate_feedback_ok h
    exact ValidationService.validate_feedback_terminal hf' hs' auth2 vid2 b2 n2

/-- C2 at a concrete input: validator `val` accepts pending feedback 1;
the repeated call returns the already-validated error and changes
nothing. -/
theorem c2_validation_status_monotonic_witness :
    (ValidationService.validate_feedback Examples.c2_auth
        { feedbacks := [⟨1, "bob", "VALIDATED"⟩],
          validations := [⟨1, "val", true, none⟩] } 1 "val" true none).2 =
      { feedbacks := [⟨1, "bob", "VALIDATED"⟩],
        validations := [⟨1, "val", true, none⟩] } ∧
    ValidationService.validate_feedback Examples.c2_auth
        { feedbacks := [⟨1, "bob", "VALIDATED"⟩],
          validations := [⟨1, "val", true, none⟩] } 1 "val" false (some "again") =
      (.error "Feedback has already been validated",
        { feedbacks := [⟨1, "bob", "VALIDATED"⟩],
          validations := [⟨1, "val", true, none⟩] }) :=
  ⟨((c2_validation_status_monotonic Examples.c2_auth Examples.c2_state 1 2 "w").2.2
      "val" true none ⟨1, "val", true, none⟩ _ (by rfl) Examples.c2_auth
      "val" true none).1,
   ((c2_validation_status_monotonic Examples.c2_auth Examples.c2_state 1 2 "w").2.2
      "val" true none ⟨1, "val", true, none⟩ _ (by rfl) Examples.c2_auth
      "val" false (some "again")).2 (by rfl)⟩

/-- C10: validator statistics are total — the approval rate is the
quotient `approved / total` whenever the validator has at least one
validation record, and `0` when it has none, with `approved ≤ total`
always. -/
theorem c10_validator_stats_total (records : List ValidationService.StatsRecord)
    (vid : String) :
    ((ValidationService.get_validator_stats records vid).total_validations =
      (records.filter (fun r => r.validator_id == vid)).length) ∧
    (0 < (ValidationService.get_validator_stats records vid).total_validations →
      (ValidationService.get_validator_stats records vid).approval_rate =
        ((ValidationService.get_validator_stats records vid).approved_validations : ℚ) /
          ((ValidationService.get_validator_stats records vid).total_validations : ℚ)) ∧
    (records.filter (fun r => r.validator_id == vid) = [] →
      (ValidationService.get_validator_stats records vid).approval_rate = 0) ∧
    (ValidationService.get_validator_stats records vid).approved_validations ≤
      (ValidationService.get_validator_stats records vid).total_validations := by
  refine ⟨rfl, ?_, ?_, ?_⟩
  · intro hpos
    simp only [ValidationService.get_validator_stats] at hpos ⊢
    rw [if_pos hpos]
  · intro hnil
    simp only [ValidationService.get_validator_stats]
    rw [if_neg (by simp [hnil])]
  · show (records.filter (fun r => r.validator_id == vid && r.is_valid)).length ≤
      (records.filter (fun r => r.validator_id == vid)).length
    have hsub :
        records.filter (fun r => r.validator_id == vid && r.is_valid) =
          (records.filter (fun r => r.validator_id == vid)).filter
            (fun r => r.is_valid) := by
      rw [List.filter_filter]
      congr 1
      funext r
      rw [Bool.and_comm]
    rw [hsub]
    exact List.length_filter_le _ _

/-- C10 at a concrete input: validator `val` has two records, one
approved, so the approval rate is the exact quotient. -/
theorem c10_validator_stats_total_witness :
    (ValidationService.get_validator_stats Examples.c10_records "val").approval_rate =
      ((ValidationService.get_validator_stats
          Examples.c10_records "val").approved_validations : ℚ) /
        ((ValidationService.get_validator_stats
            Examples.c10_records "val").total_validations : ℚ) :=
  (c10_validator_stats_total Examples.c10_records "val").2.1 (by decide)

namespace LeaderboardService

theorem distinctUsers_aux_nodup (l : List Nat) (acc : List Nat) (h : acc.Nodup) :
    (l.foldl (fun acc u => if acc.contains u then acc else acc ++ [u]) acc).Nodup := by
  induction l generalizing acc with
  | nil => simpa using h
  | cons x xs ih =>
    simp only [List.foldl_cons]
    by_cases hx : acc.contains x = true
    · rw [if_pos hx]
      exact ih acc h
    · rw [if_neg hx]
      apply ih
      rw [List.nodup_append]
      refine ⟨h, List.nodup_singleton x, ?_⟩
      intro a ha hax
      rcases List.mem_singleton.mp hax with rfl
      exact hx (by simpa using ha)

theorem distinctUsers_nodup (l : List Nat) : (distinctUsers l).Nodup :=
  distinctUsers_aux_nodup l [] List.nodup_nil

theorem map_fst_pair (l : List Nat) (f g : Nat → Nat) :
    (l.map (fun u => (u, f u, g u))).map Prod.fst = l := by
  induction l with
  | nil => rfl
  | cons x xs ih => simp [ih]

theorem groupFeedback_users (rows : List FeedbackRow) :
    (groupFeedback rows).map Prod.fst =
      distinctUsers (rows.map (fun r => r.user_id)) := by
  unfold groupFeedback
  exact map_fst_pair _ _ _

theorem groupInteractions_users (rows : List InteractionRow) :
    (groupInteractions rows).map Prod.fst =
      distinctUsers (rows.map (fun r => r.user_id)) := by
  unfold groupInteractions
  exact map_fst_pair _ _ _

theorem phase1_invariant (gs : List (Nat × Nat × Nat)) (acc : List UserEntry)
    (hacc : ∀ e ∈ acc, pPhase1 e.metrics)
    (hfresh : ∀ g ∈ gs, ∀ e ∈ acc, e.user_id ≠ g.1)
    (hnodup : (gs.map Prod.fst).Nodup) :
    ∀ e ∈ gs.foldl applyFeedbackGroup acc, pPhase1 e.metrics := by
  induction gs generalizing acc with
  | nil => simpa using hacc
  | cons g gs ih =>
    simp only [List.foldl_cons]
    have hany : (acc.any (fun e => e.user_id == g.1)) = false := by
      rw [List.any_eq_false]
      intro e he
      simpa using hfresh g (List.mem_cons_self g gs) e he
    have hstep : applyFeedbackGroup acc g = acc ++ [⟨g.1, updFeedback g Metrics.zero⟩] := by
      unfold applyFeedbackGroup
      rw [hany]
      simp
    rw [hstep]
    apply ih
    · intro e he
      rcases List.mem_append.mp he with he | he
      · exact hacc e he
      · rcases List.mem_singleton.mp he with rfl
        refine ⟨?_, rfl, rfl⟩
        simp [updFeedback, Metrics.zero]
        ring
    · intro g' hg' e he
      rcases List.mem_append.mp he with he | he
      · exact hfresh g' (List.mem_cons_of_mem _ hg') e he
      · rcases List.mem_singleton.mp he with rfl
        intro hcon
        have h1 : g.1 ∉ gs.map Prod.fst :=
          (List.nodup_cons.mp (by simpa using hnodup)).1
        have hgg : g.1 = g'.1 := hcon
        exact h1 (hgg ▸ List.mem_map_of_mem Prod.fst hg')
    · exact (List.nodup_cons.mp (by simpa using hnodup)).2

theorem phase2_invariant (gs : List (Nat × Nat × Nat)) (acc : List UserEntry)
    (hacc : ∀ e ∈ acc, pointsFormula e.metrics)
    (hp1 : ∀ g ∈ gs, ∀ e ∈ acc, e.user_id = g.1 → pPhase1 e.metrics)
    (hnodup : (gs.map Prod.fst).Nodup) :
    ∀ e ∈ gs.foldl applyInteractionGroup acc, pointsFormula e.metrics := by
  induction gs generalizing acc with
  | nil => simpa using hacc
  | cons g gs ih =>
    simp only [List.foldl_cons]
    have hhead : g.1 ∉ gs.map Prod.fst :=
      (List.nodup_cons.mp (by simpa using hnodup)).1
    apply ih
    · intro e he
      unfold applyInteractionGroup at he
      by_cases hany : (acc.any (fun e => e.user_id == g.1)) = true
      · rw [if_pos hany] at he
        rcases List.mem_map.mp he with ⟨e0, he0, rfl⟩
        by_cases hid : (e0.user_id == g.1) = true
        · rw [if_pos hid]
          obtain ⟨ht, hic, hci⟩ :=
            hp1 g (List.mem_cons_self g gs) e0 he0 (by simpa using hid)
          simp only [pointsFormula, updInteraction]
          omega
        · rw [if_neg hid]
          exact hacc e0 he0
      · rw [if_neg hany] at he
        rcases List.mem_append.mp he with he | he
        · exact hacc e he
        · rcases List.mem_singleton.mp he with rfl
          simp only [pointsFormula, updInteraction, Metrics.zero]
          omega
    · intro g' hg' e he hid
      unfold applyInteractionGroup at he
      by_cases hany : (acc.any (fun e => e.user_id == g.1)) = true
      · rw [if_pos hany] at he
        rcases List.mem_map.mp he with ⟨e0, he0, rfl⟩
        by_cases hid0 : (e0.user_id == g.1) = true
        · rw [if_pos hid0] at hid ⊢
          exfalso
          have he0id : e0.user_id = g.1 := by simpa using hid0
          have : g.1 = g'.1 := by simpa [he0id] using hid
          exact hhead (this ▸ List.mem_map_of_mem Prod.fst hg')
        · rw [if_neg hid0] at hid ⊢
          exact hp1 g' (List.mem_cons_of_mem _ hg') e0 he0 hid
      · rw [if_neg hany] at he
        rcases List.mem_append.mp he with he | he
        · exact hp1 g' (List.mem_cons_of_mem _ hg') e he hid
        · rcases List.mem_singleton.mp he with rfl
          exfalso
          have : g.1 = g'.1 := by simpa using hid
          exact hhead (this ▸ List.mem_map_of_mem Prod.fst hg')
    · exact (List.nodup_cons.mp (by simpa using hnodup)).2

/-- Every entry of the aggregated metrics dictionary satisfies the fixed
additive scoring formula. -/
theorem userMetricsOf_points (frows : List FeedbackRow)
    (irows : List InteractionRow) (tp : String) (now : Nat)
    (cat : Option String) :
    ∀ e ∈ userMetricsOf frows irows tp now cat, pointsFormula e.metrics := by
  unfold userMetricsOf
  have hph1 : ∀ e ∈ (groupFeedback (filterFeedback frows (startDateFor tp now) cat)).foldl
      applyFeedbackGroup [], pPhase1 e.metrics := by
    apply phase1_invariant
    · intro e he
      simp at he
    · intro g _ e he
      simp at he
    · rw [groupFeedback_users]
      exact distinctUsers_nodup _
  apply phase2_invariant
  · intro e he
    obtain ⟨ht, hic, hci⟩ := hph1 e he
    simp only [pointsFormula]
    omega
  · intro g _ e he _
    exact hph1 e he
  · rw [groupInteractions_users]
    exact distinctUsers_nodup _

theorem mem_attachRanks {n : Nat} {l : List UserEntry} {r : Ranking}
    (h : r ∈ attachRanks n l) :
    ∃ e ∈ l, r.user_id = e.user_id ∧ r.metrics = e.metrics := by
  induction l generalizing n with
  | nil => simp [attachRanks] at h
  | cons e es ih =>
    rcases List.mem_cons.mp (by simpa [attachRanks] using h) with rfl | h'
    · exact ⟨e, List.mem_cons_self e es, rfl, rfl⟩
    · obtain ⟨e', he', h1, h2⟩ := ih h'
      exact ⟨e', List.mem_cons_of_mem _ he', h1, h2⟩

theorem attachRanks_length (n : Nat) (l : List UserEntry) :
    (attachRanks n l).length = l.length := by
  induction l generalizing n with
  | nil => rfl
  | cons e es ih => simp [attachRanks, ih]

theorem attachRanks_get (n : Nat) (l : List UserEntry) (i : Nat)
    (h : i < (attachRanks n l).length) :
    ((attachRanks n l).get ⟨i, h⟩).rank = n + i := by
  induction l generalizing n i with
  | nil => simp [attachRanks] at h
  | cons e es ih =>
    cases i with
    | zero => rfl
    | succ j =>
      have hj : j < (attachRanks (n + 1) es).length := by
        simpa [attachRanks] using h
      have ihj := ih (n + 1) j hj
      show ((attachRanks (n + 1) es).get ⟨j, hj⟩).rank = n + (j + 1)
      rw [ihj]
      omega

theorem attachRanks_pairwise (n : Nat) (l : List UserEntry)
    (h : l.Pairwise (fun a b => b.metrics.total_points ≤ a.metrics.total_points)) :
    (attachRanks n l).Pairwise
      (fun a b => b.metrics.total_points ≤ a.metrics.total_points) := by
  induction l generalizing n with
  | nil => simp [attachRanks]
  | cons e es ih =>
    rcases List.pairwise_cons.mp h with ⟨he, hes⟩
    refine List.pairwise_cons.mpr ⟨?_, ih (n + 1) hes⟩
    intro r hr
    obtain ⟨e', he', -, hm⟩ := mem_attachRanks hr
    rw [hm]
    exact he e' he'

theorem length_insertDescBy {α : Type} (key : α → Nat) (x : α) (l : List α) :
    (insertDescBy key x l).length = l.length + 1 := by
  induction l with
  | nil => rfl
  | cons y ys ih =>
    by_cases h : key y ≤ key x
    · simp [insertDescBy, h]
    · simp [insertDescBy, h, ih]

theorem length_sortDescBy {α : Type} (key : α → Nat) (l : List α) :
    (sortDescBy key l).length = l.length := by
  induction l with
  | nil => rfl
  | cons y ys ih =>
    simp only [sortDescBy, List.foldr_cons] at *
    rw [length_insertDescBy, ih]
    rfl

end LeaderboardService

/-- C4: every entry of the returned rankings carries a total computed as
`5*feedback_count + 10*accepted_feedback + 2*interaction_count +
5*completed_interactions`, for every time window and category filter. -/
theorem c4_leaderboard_points (frows : List LeaderboardService.FeedbackRow)
    (irows : List LeaderboardService.InteractionRow) (tp : String) (now : Nat)
    (cat : Option String) (limit : Nat) (r : LeaderboardService.Ranking)
    (hr : r ∈ LeaderboardService.get_user_rankings frows irows tp now cat limit) :
    r.metrics.total_points =
      5 * r.metrics.feedback_count + 10 * r.metrics.accepted_feedback +
        2 * r.metrics.interaction_count +
        5 * r.metrics.completed_interactions := by
  simp only [LeaderboardService.get_user_rankings] at hr
  obtain ⟨e, he, -, hm⟩ := LeaderboardService.mem_attachRanks hr
  have he' : e ∈ sortDescBy
      (fun e : LeaderboardService.UserEntry => e.metrics.total_points)
      (LeaderboardService.userMetricsOf frows irows tp now cat) :=
    List.take_subset _ _ he
  have he'' := (mem_sortDescBy
    (fun e : LeaderboardService.UserEntry => e.metrics.total_points)).mp he'
  have := LeaderboardService.userMetricsOf_points frows irows tp now cat e he''
  rw [hm]
  exact this

/-- C4 at a concrete input: one user with 2 submissions (1 accepted), 1
started and completed interaction scores 5·2 + 10·1 + 2·1 + 5·1 = 27. -/
theorem c4_leaderboard_points_witness :
    (⟨1, 1, ⟨2, 1, 1, 1, 27⟩⟩ : LeaderboardService.Ranking).metrics.total_points =
      5 * (⟨1, 1, ⟨2, 1, 1, 1, 27⟩⟩ : LeaderboardService.Ranking).metrics.feedback_count +
        10 * (⟨1, 1, ⟨2, 1, 1, 1, 27⟩⟩ : LeaderboardService.Ranking).metrics.accepted_feedback +
        2 * (⟨1, 1, ⟨2, 1, 1, 1, 27⟩⟩ : LeaderboardService.Ranking).metrics.interaction_count +
        5 * (⟨1, 1, ⟨2, 1, 1, 1, 27⟩⟩ : LeaderboardService.Ranking).metrics.completed_interactions :=
  c4_leaderboard_points Examples.c4_frows Examples.c4_irows "all_time" 0 none 100
    ⟨1, 1, ⟨2, 1, 1, 1, 27⟩⟩ (by decide)

/-- C5: the specification asserts ties are broken by ascending user
identifier.  On two users with equal points whose rows arrive in the
order user 2 before user 1, the rankings list users 2 then 1 — the
stable sort keeps encounter order and applies no identifier tie-break,
violating the claimed ordering. -/
theorem c5_counterexample :
    ((LeaderboardService.get_user_rankings Examples.c5_frows [] "all_time" 0
        none 100).map (fun r => r.user_id) = [2, 1]) ∧
    ((LeaderboardService.get_user_rankings Examples.c5_frows [] "all_time" 0
        none 100).map (fun r => r.metrics.total_points) = [5, 5]) ∧
    LeaderboardService.pointsThenIdOrder
      (LeaderboardService.get_user_rankings Examples.c5_frows [] "all_time" 0
        none 100) = false := by
  decide

/-- C5 (amended): `get_user_rankings` sorts by total points in
non-increasing order with a *stable* sort — ties keep the order in which
users first appear in the aggregation, with no user-identifier
tie-break — assigns sequential 1-based ranks, and truncates to the
limit; the function is pure, so two calls on the same inputs return
identical orderings. -/
theorem c5_ranking_behavior (frows : List LeaderboardService.FeedbackRow)
    (irows : List LeaderboardService.InteractionRow) (tp : String) (now : Nat)
    (cat : Option String) (limit : Nat) :
    ((LeaderboardService.get_user_rankings frows irows tp now cat limit).Pairwise
      (fun a b => b.metrics.total_points ≤ a.metrics.total_points)) ∧
    (∀ i (h : i <
        (LeaderboardService.get_user_rankings frows irows tp now cat limit).length),
      ((LeaderboardService.get_user_rankings frows irows tp now cat limit).get
          ⟨i, h⟩).rank = i + 1) ∧
    ((LeaderboardService.get_user_rankings frows irows tp now cat limit).length =
      min limit (LeaderboardService.userMetricsOf frows irows tp now cat).length) ∧
    (∀ p, (sortDescBy (fun e => e.metrics.total_points)
        (LeaderboardService.userMetricsOf frows irows tp now cat)).filter
          (fun e => e.metrics.total_points == p) =
      (LeaderboardService.userMetricsOf frows irows tp now cat).filter
        (fun e => e.metrics.total_points == p)) := by
  refine ⟨?_, ?_, ?_, ?_⟩
  · apply LeaderboardService.attachRanks_pairwise
    exact List.Pairwise.sublist (List.take_sublist _ _)
      (pairwise_sortDescBy
        (fun e : LeaderboardService.UserEntry => e.metrics.total_points) _)
  · intro i h
    exact (LeaderboardService.attachRanks_get 1 _ i h).trans (Nat.add_comm 1 i)
  · simp only [LeaderboardService.get_user_rankings]
    rw [LeaderboardService.attachRanks_length, List.length_take,
      LeaderboardService.length_sortDescBy]
  · intro p
    exact filter_sortDescBy _ _ p

/-- C5 (amended) at a concrete input: with two tied users the first
ranking carries rank 1. -/
theorem c5_ranking_behavior_witness :
    ((LeaderboardService.get_user_rankings Examples.c5_frows [] "all_time" 0
        none 100).get ⟨0, by decide⟩).rank = 0 + 1 :=
  (c5_ranking_behavior Examples.c5_frows [] "all_time" 0 none 100).2.1 0
    (by decide)

/-- C6: the specification asserts every no-signal submission fails with
`NoSignal` and persists nothing.  The `create_feedback` path performs no
such check: submitting an empty dimension-ratings list (and this path
has no scalar/binary/ranking fields at all) succeeds and persists a
feedback record. -/
theorem c6_counterexample :
    (FeedbackService.create_feedback Examples.c6_db 1 "u" [] none).1.toOption =
      some ⟨1, 1, "u", none⟩ ∧
    (FeedbackService.create_feedback Examples.c6_db 1 "u" [] none).2.rated_feedbacks =
      [⟨1, 1, "u", none⟩] := by
  decide

/-- C6 (amended): the scalar path `submit_feedback` does reject
no-signal submissions — with `rating`, `binary_evaluation` and `ranking`
all absent it always errors and leaves the database unchanged, and when
the interaction and prompt exist the error is the no-signal message —
while the dimension-ratings path `create_feedback` performs no signal
check: with an intact chain and no duplicate, an empty ratings list
creates and persists a record. -/
theorem c6_no_signal (db : FeedbackService.Db) (iid pid rid : Nat)
    (uid cat : String) (just c : Option String) :
    ((FeedbackService.submit_feedback db iid pid uid cat none none none just).2 =
      db) ∧
    (∃ msg, (FeedbackService.submit_feedback db iid pid uid cat none none none
      just).1 = .error msg) ∧
    (∀ i, db.interactions.find? (fun x => x.id == iid) = some i →
      (db.prompts.find? (fun p => p.id == pid)).isSome = true →
      FeedbackService.submit_feedback db iid pid uid cat none none none just =
        (.error "Must provide at least one type of evaluation", db)) ∧
    (∀ response prompt interaction,
      db.responses.find? (fun r => r.id == rid) = some response →
      db.prompts.find? (fun p => p.id == response.prompt_id) = some prompt →
      db.interactions.find? (fun i => i.id == prompt.interaction_id) =
        some interaction →
      db.rated_feedbacks.any (fun f =>
        f.response_id == rid && f.user_id == uid) = false →
      FeedbackService.create_feedback db rid uid [] c =
        (.ok ⟨db.next_feedback_id, rid, uid, c⟩,
         { db with
             rated_feedbacks :=
               db.rated_feedbacks ++ [⟨db.next_feedback_id, rid, uid, c⟩]
             dimension_ratings := db.dimension_ratings ++ []
             next_feedback_id := db.next_feedback_id + 1 })) := by
  refine ⟨?_, ?_, ?_, ?_⟩
  · unfold FeedbackService.submit_feedback
    cases h1 : db.interactions.find? (fun i => i.id == iid) with
    | none => rfl
    | some i =>
      cases h2 : db.prompts.find? (fun p => p.id == pid) with
      | none => rfl
      | some p => rfl
  · unfold FeedbackService.submit_feedback
    cases h1 : db.interactions.find? (fun i => i.id == iid) with
    | none => exact ⟨_, rfl⟩
    | some i =>
      cases h2 : db.prompts.find? (fun p => p.id == pid) with
      | none => exact ⟨_, rfl⟩
      | some p => exact ⟨_, rfl⟩
  · intro i hi hp
    obtain ⟨p, hp'⟩ := Option.isSome_iff_exists.mp hp
    simp only [FeedbackService.submit_feedback, hi, hp']
    rfl
  · intro response prompt interaction hr hp hi hdup
    simp only [FeedbackService.create_feedback, hr, hp, hi, hdup,
      Bool.false_eq_true, if_false]
    rfl

/-- C6 (amended) at concrete inputs: the scalar path rejects the
no-signal submission unchanged; the ratings path persists a record for
an empty ratings list. -/
theorem c6_no_signal_witness :
    (FeedbackService.submit_feedback Examples.c6_db 1 1 "u" "cat" none none
        none none =
      (.error "Must provide at least one type of evaluation", Examples.c6_db)) ∧
    (FeedbackService.create_feedback Examples.c6_db 1 "u" [] none =
      (.ok ⟨1, 1, "u", none⟩,
       { Examples.c6_db with
           rated_feedbacks := Examples.c6_db.rated_feedbacks ++ [⟨1, 1, "u", none⟩]
           dimension_ratings := Examples.c6_db.dimension_ratings ++ []
           next_feedback_id := Examples.c6_db.next_feedback_id + 1 })) :=
  ⟨(c6_no_signal Examples.c6_db 1 1 1 "u" "cat" none none).2.2.1
      ⟨1, "model-1", "v1"⟩ (by rfl) (by rfl),
   (c6_no_signal Examples.c6_db 1 1 1 "u" "cat" none none).2.2.2
      ⟨1, 1⟩ ⟨1, 1⟩ ⟨1, "model-1", "v1"⟩ (by rfl) (by rfl) (by rfl) (by rfl)⟩

/-- C8: the specification asserts a soft-deactivated dimension does not
block creation of a new dimension with the same scope and name.  The
existence query has no `is_active` filter: a catalog holding only the
deactivated dimension `(model-1, quality)` still yields the conflict
error. -/
theorem c8_counterexample :
    DimensionService.create_dimension (fun _ => true) Examples.c8_db "model-1"
        "quality" "x" "admin" =
      (.error "Dimension with this name already exists for this model",
        Examples.c8_db) ∧
    (∀ d ∈ Examples.c8_db.dimensions, d.is_active = false) :=
  ⟨rfl, by decide⟩

/-- C8 (amended): for a deployed model (or the universal scope `all`),
`create_dimension` returns the conflict error exactly when *any*
dimension — active or soft-deactivated — with the same
`(model_id, name)` already exists. -/
theorem c8_conflict_any_dimension (vm : String → Bool)
    (db : DimensionService.Db) (m n d cb : String)
    (h : m = "all" ∨ vm m = true) :
    ((DimensionService.create_dimension vm db m n d cb).1 =
        .error "Dimension with this name already exists for this model") ↔
      db.dimensions.any (fun dim => dim.model_id == m && dim.name == n) =
        true := by
  have hc : (m != "all" && !vm m) = false := by
    rcases h with h | h <;> simp [h]
  unfold DimensionService.create_dimension
  rw [if_neg (by simp [hc])]
  cases hfind : db.dimensions.find? (fun dd => dd.model_id == m && dd.name == n) with
  | some dd =>
    constructor
    · intro _
      have hpa := List.find?_some hfind
      exact List.any_eq_true.mpr ⟨dd, List.mem_of_find?_eq_some hfind, hpa⟩
    · intro _
      rfl
  | none =>
    constructor
    · intro hcontra
      exact absurd hcontra (by simp)
    · intro hany
      obtain ⟨dd, hmem, hdd⟩ := List.any_eq_true.mp hany
      exact absurd hdd (List.find?_eq_none.mp hfind dd hmem)

/-- C8 (amended) at a concrete input: with an *active* `(model-1,
quality)` dimension present the conflict is reported, matching the
existence of a same-key dimension. -/
theorem c8_conflict_any_dimension_witness :
    ((DimensionService.create_dimension (fun _ => true) Examples.c8_active_db
        "model-1" "quality" "x" "admin").1 =
      .error "Dimension with this name already exists for this model") ↔
      Examples.c8_active_db.dimensions.any
        (fun dim => dim.model_id == "model-1" && dim.name == "quality") = true :=
  c8_conflict_any_dimension (fun _ => true) Examples.c8_active_db "model-1"
    "quality" "x" "admin" (Or.inr rfl)

end InteractionService
